import Mathlib

/-!
Verification of the research-agent pipeline (src/backend/services/research_agent.py).

External effects (OpenAI chat completions, HTTP search requests, HTML element
extraction, ChromaDB calls, uuid generation) are modelled as oracle parameters:
an `Except Unit α` value stands for "the call raised some exception" (`.error ()`)
or "the call returned `a`" (`.ok a`).  All in-source logic — fallback chains,
string manipulation, mock-result generation, source derivation — is embedded
directly, with Python string primitives re-implemented over character lists so
that every definition evaluates inside the kernel.
-/

/-! ### Python string primitives over character lists -/

/-- Python whitespace recognised by `str.strip()` (ASCII subset). -/
def isPySpace (c : Char) : Bool :=
  c = ' ' || c = '\t' || c = '\n' || c = '\r' || c = '\x0b' || c = '\x0c'

/-- `str.strip()`: drop whitespace from both ends. -/
def pyStrip (s : String) : String :=
  String.mk (((s.data.dropWhile isPySpace).reverse.dropWhile isPySpace).reverse)

/-- Does the character list start with the given pattern? (`str.startswith`). -/
def startsCh : List Char → List Char → Bool
  | [], _ => true
  | _ :: _, [] => false
  | p :: ps, c :: cs => p = c && startsCh ps cs

/-- Does the character list contain the pattern as a contiguous sublist?
(Python's `pat in s`). -/
def containsCh (pat : List Char) : List Char → Bool
  | [] => startsCh pat []
  | c :: cs => startsCh pat (c :: cs) || containsCh pat cs

/-- Python `pat in s` on strings. -/
def containsSubstr (s pat : String) : Bool :=
  containsCh pat.data s.data

/-- `str.startswith` on strings. -/
def pyStarts (s pat : String) : Bool :=
  startsCh pat.data s.data

/-- If `l` starts with `pat`, return the remainder of `l` after `pat`. -/
def chopPref : List Char → List Char → Option (List Char)
  | [], l => some l
  | _ :: _, [] => none
  | p :: ps, c :: cs => if p = c then chopPref ps cs else none

/-- Fuel-driven worker for `pyReplace`; the fuel (initially the length of the
input) makes the recursion structural while scanning left to right,
non-overlapping, exactly like Python's `str.replace`. -/
def pyReplaceFuel (pat repl : List Char) : Nat → List Char → List Char
  | _, [] => []
  | 0, l => l
  | fuel + 1, c :: cs =>
    match chopPref pat (c :: cs) with
    | some rest => repl ++ pyReplaceFuel pat repl fuel rest
    | none => c :: pyReplaceFuel pat repl fuel cs

/-- Python `s.replace(pat, repl)` (all occurrences, left to right). -/
def pyReplace (s pat repl : String) : String :=
  String.mk (pyReplaceFuel pat.data repl.data s.data.length s.data)

/-- ASCII lowering of one character, as Python `str.lower` acts on ASCII. -/
def pyCharLower (c : Char) : Char :=
  if 'A' ≤ c ∧ c ≤ 'Z' then Char.ofNat (c.toNat + 32) else c

/-- Python `str.lower()`. -/
def pyLower (s : String) : String :=
  String.mk (s.data.map pyCharLower)

/-- Split a character list on every occurrence of a single separator character,
keeping empty segments, exactly like Python `str.split(sep)` for a one-character
separator. -/
def splitCh (sep : Char) : List Char → List (List Char)
  | [] => [[]]
  | c :: cs =>
    if c = sep then [] :: splitCh sep cs
    else
      match splitCh sep cs with
      | [] => [[c]]
      | h :: t => (c :: h) :: t

/-- Python `s[n:]` on strings (code points). -/
def pyDrop (s : String) (n : Nat) : String :=
  String.mk (s.data.drop n)

/-! ### Data model -/

/-- A parsed (or mock) web search result, as built by `_search_web`,
`_fallback_search` and `_generate_mock_results`. -/
structure SearchResult where
  title : String
  link : String
  snippet : String
  source : String
  query : String
deriving DecidableEq, Repr

/-- A citable source record, as built by `_summarize_findings`. -/
structure Source where
  id : Nat
  title : String
  url : String
  snippet : String
deriving DecidableEq, Repr

/-- The dictionary returned by `conduct_research`. -/
structure ResearchResponse where
  question : String
  sub_questions : List String
  summary : String
  sources : List Source
  research_id : String
deriving DecidableEq, Repr

/-- A canned mock entry in the `topics` table of `_generate_mock_results`
(these records carry no `link` field in the source). -/
structure MockEntry where
  title : String
  source : String
  snippet : String
deriving DecidableEq, Repr

/-! ### Question Decomposer (`_break_down_question`) -/

/-- The f-string prompt built by `_break_down_question` (indentation of the
Python triple-quoted literal included). -/
def break_down_prompt (question : String) : String :=
  "\n        Break down this research question into 3-5 specific sub-questions that would help provide a comprehensive answer:\n        \n        Main Question: " ++ question ++ "\n        \n        Return only a JSON list of sub-questions, no other text:\n        "

/-- The cleanup applied to the model reply: strip, then remove code-fence
markers when the reply starts with one, then strip again. -/
def cleanContent (content : String) : String :=
  let c := pyStrip content
  if pyStarts c "```json" then
    pyStrip (pyReplace (pyReplace c "```json" "") "```" "")
  else c

/-- `_break_down_question`.  `llm` is the chat-completion call (prompt in,
stripped reply text out, or an exception); `jsonLoads` is `json.loads`
restricted to JSON arrays of strings (`.error` for any parse failure).  Any
exception on the happy path falls back to `[question]`. -/
def break_down_question (question : String)
    (llm : String → Except Unit String)
    (jsonLoads : String → Except Unit (List String)) : List String :=
  match llm (break_down_prompt question) with
  | .error _ => [question]
  | .ok content =>
    match jsonLoads (cleanContent content) with
    | .error _ => [question]
    | .ok sub_questions => sub_questions

/-! ### Web Search Client (`_search_web`, `_fallback_search`) -/

/-- `source` derivation used in both search tiers:
`link.split('/')[2] if '//' in link else link`. -/
def deriveSource (link : String) : String :=
  if containsSubstr link "//" then String.mk ((splitCh '/' link.data).getD 2 [])
  else link

/-- DuckDuckGo redirect unwrapping: when the href starts with `/l/?`, run
`urllib.parse.parse_qs` on the remainder and take `parsed['uddg'][0]` when
present.  `uddg` is the oracle for that external query-string lookup. -/
def unwrapLink (link : String) (uddg : String → Option String) : String :=
  if pyStarts link "/l/?" then
    match uddg (pyDrop link 4) with
    | some real => real
    | none => link
  else link

/-- One DuckDuckGo result container as extracted from the HTML: `none` when
`title_elem` or `snippet_elem` is missing or the per-result parse raised
(the loop `continue`s), otherwise the raw `(title text, href, snippet text)`. -/
abbrev RawDDGItem := Option (String × String × String)

/-- One Google result container: `none` when `h3` or the anchor is missing or
the per-result parse raised, otherwise `(title text, href, optional snippet)`. -/
abbrev RawGoogleItem := Option (String × String × Option String)

/-- The DuckDuckGo parsing loop of `_search_web`: take the first
`max_results` containers, skip unparseable ones, strip title and snippet,
unwrap redirect links, and derive `source` from the link. -/
def parseDDG (query : String) (uddg : String → Option String)
    (raws : List RawDDGItem) (max_results : Nat) : List SearchResult :=
  (raws.take max_results).filterMap (fun raw =>
    raw.map (fun item =>
      let link := unwrapLink item.2.1 uddg
      { title := pyStrip item.1, link := link, snippet := pyStrip item.2.2,
        source := deriveSource link, query := query }))

/-- The Google parsing loop of `_fallback_search`: take the first
`max_results` containers, skip unparseable ones, default the snippet when the
snippet span is absent, and derive `source` from the link. -/
def parseGoogle (query : String) (raws : List RawGoogleItem)
    (max_results : Nat) : List SearchResult :=
  (raws.take max_results).filterMap (fun raw =>
    raw.map (fun item =>
      { title := pyStrip item.1, link := item.2.1,
        snippet := (item.2.2.map pyStrip).getD "No description available",
        source := deriveSource item.2.1, query := query }))

/-! ### Mock Result Generator (`_generate_mock_results`) -/

def climateEntries : List MockEntry :=
  [{ title := "Climate Change Overview - EPA", source := "epa.gov",
     snippet := "Climate change refers to long-term shifts in global temperatures and weather patterns." },
   { title := "Global Warming Facts - NASA", source := "nasa.gov",
     snippet := "Scientific evidence shows that human activities are the primary cause of recent climate change." },
   { title := "Climate Change Impacts - IPCC", source := "ipcc.ch",
     snippet := "Climate change affects ecosystems, human health, and economic systems worldwide." }]

def aiEntries : List MockEntry :=
  [{ title := "What is Artificial Intelligence? - MIT", source := "mit.edu",
     snippet := "AI is the simulation of human intelligence processes by machines and computer systems." },
   { title := "Machine Learning Basics - Stanford", source := "stanford.edu",
     snippet := "Machine learning is a subset of AI that enables computers to learn from data." },
   { title := "AI Applications - IEEE", source := "ieee.org",
     snippet := "AI applications span across healthcare, finance, transportation, and entertainment." }]

def economicEntries : List MockEntry :=
  [{ title := "Economic Principles - World Bank", source := "worldbank.org",
     snippet := "Economic analysis examines how societies allocate scarce resources." },
   { title := "Global Economic Trends - IMF", source := "imf.org",
     snippet := "Current economic indicators show varying growth patterns across regions." },
   { title := "Economic Policy Impact - OECD", source := "oecd.org",
     snippet := "Economic policies significantly influence market dynamics and social outcomes." }]

/-- The `topics` dict of `_generate_mock_results`, in Python insertion order. -/
def topics : List (String × List MockEntry) :=
  [("climate change", climateEntries),
   ("artificial intelligence", aiEntries),
   ("economic", economicEntries)]

/-- The topic-selection loop: first entry whose keyword is a substring of the
lower-cased query (`if topic in query_lower: ...; break`). -/
def findTopic (query_lower : String) : Option (List MockEntry) :=
  (topics.find? (fun t => containsSubstr query_lower t.1)).map Prod.snd

/-- The post-loop normalisation of a canned record: attach the query and
synthesize the missing `link` as `https://` + `source`. -/
def mockEntryToResult (query : String) (e : MockEntry) : SearchResult :=
  { title := e.title, link := "https://" ++ e.source, snippet := e.snippet,
    source := e.source, query := query }

/-- One generic placeholder record (`for i in range(max_results)` body),
`i` 0-based as in the Python loop. -/
def genericMockResult (query : String) (i : Nat) : SearchResult :=
  { title := "Research Result " ++ toString (i + 1) ++ ": " ++ query,
    link := "https://example.com/research-" ++ toString (i + 1),
    snippet := "This is a research finding related to " ++ query ++ ". The information provides insights and analysis on the topic.",
    source := "research-source-" ++ toString (i + 1) ++ ".com",
    query := query }

/-- `_generate_mock_results`: canned topic set truncated to `max_results`
when a known keyword occurs in the lower-cased query, otherwise `max_results`
generic placeholders; every record gets the query attached and a missing link
synthesized from its source. -/
def generate_mock_results (query : String) (max_results : Nat) : List SearchResult :=
  match findTopic (pyLower query) with
  | some canned => (canned.take max_results).map (mockEntryToResult query)
  | none => (List.range max_results).map (genericMockResult query)

/-! ### Fallback chain (`_search_web` / `_fallback_search`) -/

/-- `_fallback_search`: the Google tier.  `google` is the HTTP request plus
document parse: `.error ()` for an exception or a non-200 status, `.ok raws`
for the extracted result containers.  An empty parse falls through to the
mock generator, as does any exception. -/
def fallback_search (query : String) (max_results : Nat)
    (google : Except Unit (List RawGoogleItem)) : List SearchResult :=
  match google with
  | .ok raws =>
    let results := parseGoogle query raws max_results
    if results.isEmpty then generate_mock_results query max_results else results
  | .error _ => generate_mock_results query max_results

/-- `_search_web`: the DuckDuckGo tier with `_fallback_search` as the
fallback, both on an exception and on an empty parse. -/
def search_web (query : String) (max_results : Nat)
    (uddg : String → Option String)
    (ddg : Except Unit (List RawDDGItem))
    (google : Except Unit (List RawGoogleItem)) : List SearchResult :=
  match ddg with
  | .ok raws =>
    let results := parseDDG query uddg raws max_results
    if results.isEmpty then fallback_search query max_results google else results
  | .error _ => fallback_search query max_results google

/-! ### Summarizer (`_summarize_findings`) -/

/-- The source-list construction loop of `_summarize_findings`
(`for i, result in enumerate(search_results): sources.append(...)`),
with `a` the 0-based index of the first element. -/
def buildSourcesFrom (a : Nat) : List SearchResult → List Source
  | [] => []
  | r :: rest =>
    { id := a + 1, title := r.title, url := r.link, snippet := r.snippet }
      :: buildSourcesFrom (a + 1) rest

/-- The full source list (enumeration starting at index 0). -/
def buildSources (search_results : List SearchResult) : List Source :=
  buildSourcesFrom 0 search_results

/-- The `context` accumulation of the same loop, `a` the 0-based index of the
first element. -/
def buildContextFrom (a : Nat) : List SearchResult → String
  | [] => ""
  | r :: rest =>
    "\n[Source " ++ toString (a + 1) ++ "] " ++ r.title ++ "\n" ++ r.snippet
      ++ "\nURL: " ++ r.link ++ "\n" ++ buildContextFrom (a + 1) rest

/-- The f-string prompt built by `_summarize_findings`. -/
def summarize_prompt (main_question : String) (sub_questions : List String)
    (search_results : List SearchResult) : String :=
  "\n        You are a research analyst. Based on the search results below, provide a comprehensive summary \n        that answers this research question: "
    ++ main_question
    ++ "\n        \n        Sub-questions explored:\n        "
    ++ String.intercalate "\n" (sub_questions.map (fun sq => "- " ++ sq))
    ++ "\n        \n        Search Results:\n        "
    ++ buildContextFrom 0 search_results
    ++ "\n        \n        Please provide:\n        1. A well-structured summary (500-800 words) that addresses the main question\n        2. Use specific information from the sources\n        3. Maintain objectivity and cite sources using [Source X] format\n        4. Structure the response with clear sections/paragraphs\n        5. Include key statistics, facts, and findings where available\n        \n        Summary:\n        "

/-- `_summarize_findings`: build the source list and context locally, call the
model on the prompt; on success return the stripped reply with the sources,
on any exception return the fixed error message with the same sources. -/
def summarize_findings (main_question : String) (sub_questions : List String)
    (search_results : List SearchResult)
    (llm : String → Except Unit String) : String × List Source :=
  let sources := buildSources search_results
  match llm (summarize_prompt main_question sub_questions search_results) with
  | .ok reply => (pyStrip reply, sources)
  | .error _ => ("Error generating summary. Please try again.", sources)

/-! ### Result Store (`_store_results`, `get_similar_research`) -/

/-- `_store_results`.  `add` is the outcome of the `collection.add` call (its
payload is the summary document plus metadata carrying the research id, the
question, a timestamp and `len(sources)`).  The result is what the Python
coroutine does overall: `.ok ()` for a normal return, `.error` had an
exception propagated — the `try/except` swallows every exception, so the
error case of `add` still returns normally. -/
def store_results (research_id question summary : String) (sources : List Source)
    (add : Except Unit Unit) : Except Unit Unit :=
  match add with
  | .ok u => .ok u
  | .error _ => .ok ()

/-- `get_similar_research`.  `queryCall` is the outcome of
`collection.query(query_texts=[question], n_results=limit)`; on an exception
the function returns the empty list normally. -/
def get_similar_research {α : Type} (question : String) (limit : Nat)
    (queryCall : String → Nat → Except Unit (List α)) : Except Unit (List α) :=
  match queryCall question limit with
  | .ok results => .ok results
  | .error _ => .ok []

/-! ### Research Orchestrator (`conduct_research`) -/

/-- The search fan-out loop of `conduct_research`: for each sub-question in
order, request `max_results // len(sub_questions)` results and extend the
aggregate list.  The division sits inside the loop body, as in the source. -/
def aggregateResults (sub_questions : List String) (max_results : Nat)
    (uddg : String → Option String)
    (ddg : String → Except Unit (List RawDDGItem))
    (google : String → Except Unit (List RawGoogleItem)) : List SearchResult :=
  sub_questions.foldl
    (fun acc sq =>
      acc ++ search_web sq (max_results / sub_questions.length) uddg (ddg sq) (google sq))
    []

/-- `conduct_research`: decompose, fan out searches, summarize, store
(fire-and-forget; `store_results` never raises), and assemble the response.
`research_id` is the `uuid.uuid4()` oracle; the remaining parameters are the
per-stage external-call oracles. -/
def conduct_research (question : String) (max_results : Nat)
    (research_id : String)
    (llm1 : String → Except Unit String)
    (jsonLoads : String → Except Unit (List String))
    (uddg : String → Option String)
    (ddg : String → Except Unit (List RawDDGItem))
    (google : String → Except Unit (List RawGoogleItem))
    (llm2 : String → Except Unit String)
    (add : Except Unit Unit) : ResearchResponse :=
  let sub_questions := break_down_question question llm1 jsonLoads
  let all_search_results := aggregateResults sub_questions max_results uddg ddg google
  let sp := summarize_findings question sub_questions all_search_results llm2
  let _stored := store_results research_id question sp.1 sp.2 add
  { question := question, sub_questions := sub_questions, summary := sp.1,
    sources := sp.2, research_id := research_id }

/-! ### Helper lemmas -/

theorem strAppend_data (a b : String) : (a ++ b).data = a.data ++ b.data := rfl

theorem strAppend_ne_empty (p s : String) (hp : p.data ≠ []) : p ++ s ≠ "" := by
  intro h
  have hd : (p ++ s).data = ("" : String).data := congrArg String.data h
  rw [strAppend_data] at hd
  exact hp (List.append_eq_nil.mp hd).1

theorem strDataNil (p : String) (hd : p.data = []) : p = "" := by
  cases p with
  | mk d => cases hd; rfl

theorem strAppendL (p s : String) (hp : p ≠ "") : p ++ s ≠ "" :=
  strAppend_ne_empty p s (fun hd => hp (strDataNil p hd))

theorem summarize_findings_snd (mq : String) (subs : List String)
    (rs : List SearchResult) (llm : String → Except Unit String) :
    (summarize_findings mq subs rs llm).2 = buildSources rs := by
  cases hllm : llm (summarize_prompt mq subs rs) <;> simp [summarize_findings, hllm]

theorem buildSourcesFrom_length (rs : List SearchResult) :
    ∀ a, (buildSourcesFrom a rs).length = rs.length := by
  induction rs with
  | nil => intro a; rfl
  | cons r rest ih => intro a; simp [buildSourcesFrom, ih]

theorem buildSourcesFrom_get? (rs : List SearchResult) :
    ∀ a i r, rs.get? i = some r →
      (buildSourcesFrom a rs).get? i =
        some { id := a + i + 1, title := r.title, url := r.link, snippet := r.snippet } := by
  induction rs with
  | nil => intro a i r h; simp at h
  | cons x rest ih =>
    intro a i r h
    cases i with
    | zero =>
      have hx : x = r := by simpa using h
      subst hx
      rfl
    | succ j =>
      have h2 : rest.get? j = some r := h
      have h3 := ih (a + 1) j r h2
      have heq : a + 1 + j + 1 = a + (j + 1) + 1 := by omega
      rw [heq] at h3
      exact h3

/-! ### C1 — Question Decomposer fallback -/

/-- **C1** (counterexample): the Decomposer can return an *empty* sequence:
when the model call succeeds and returns the valid JSON array `[]`, the parsed
empty list is returned verbatim, so the result is not always non-empty. -/
theorem breakdown_nonempty_violated :
    break_down_question "What is AI?" (fun _ => Except.ok "[]")
      (fun _ => Except.ok ([] : List String)) = [] := rfl

/-- **C1** (amended): the Decomposer returns exactly `[question]` whenever the
model call raises or its reply fails to parse as JSON, and otherwise returns
the parsed list verbatim (hence the result can only be empty when the model
returns a parseable empty JSON array). -/
theorem breakdown_fallback_exact (question : String)
    (llm : String → Except Unit String)
    (jsonLoads : String → Except Unit (List String)) :
    (llm (break_down_prompt question) = Except.error () →
      break_down_question question llm jsonLoads = [question]) ∧
    (∀ content, llm (break_down_prompt question) = Except.ok content →
      jsonLoads (cleanContent content) = Except.error () →
      break_down_question question llm jsonLoads = [question]) ∧
    (∀ content subs, llm (break_down_prompt question) = Except.ok content →
      jsonLoads (cleanContent content) = Except.ok subs →
      break_down_question question llm jsonLoads = subs) := by
  refine ⟨fun h => ?_, fun c h1 h2 => ?_, fun c subs h1 h2 => ?_⟩ <;>
    simp_all [break_down_question]

/-- **C1** witness: with a failing model call the result is exactly the
original question. -/
theorem breakdown_fallback_exact_witness :
    break_down_question "What is AI?" (fun _ => Except.error ())
      (fun _ => Except.error ()) = ["What is AI?"] :=
  (breakdown_fallback_exact "What is AI?" (fun _ => Except.error ())
    (fun _ => Except.error ())).1 rfl

/-! ### C2 — Summarizer source alignment -/

/-- **C2**: whatever the summarization model call does, the returned source
list has the same length as the aggregated search-result list, and the `i`-th
source has id `i+1` with title, url and snippet copied from the `i`-th
search result. -/
theorem sources_align_with_results (main_question : String)
    (sub_questions : List String) (search_results : List SearchResult)
    (llm : String → Except Unit String) :
    (summarize_findings main_question sub_questions search_results llm).2.length
        = search_results.length ∧
    ∀ i r, search_results.get? i = some r →
      (summarize_findings main_question sub_questions search_results llm).2.get? i
        = some { id := i + 1, title := r.title, url := r.link, snippet := r.snippet } := by
  rw [summarize_findings_snd]
  refine ⟨buildSourcesFrom_length search_results 0, fun i r h => ?_⟩
  have h3 := buildSourcesFrom_get? search_results 0 i r h
  simpa using h3

/-- **C2** witness at a one-element result list and a raising model call. -/
theorem sources_align_with_results_witness :
    (summarize_findings "q" ["s1"]
        [{ title := "t", link := "l", snippet := "sn", source := "h", query := "q" }]
        (fun _ => Except.error ())).2.get? 0
      = some { id := 1, title := "t", url := "l", snippet := "sn" } :=
  (sources_align_with_results "q" ["s1"]
    [{ title := "t", link := "l", snippet := "sn", source := "h", query := "q" }]
    (fun _ => Except.error ())).2 0
    { title := "t", link := "l", snippet := "sn", source := "h", query := "q" } rfl

/-! ### C5 — Summarizer error path -/

/-- **C5**: if the summarization model call raises, `_summarize_findings`
returns the fixed literal error message together with the locally built
source list. -/
theorem summary_error_literal (main_question : String) (sub_questions : List String)
    (search_results : List SearchResult) (llm : String → Except Unit String)
    (h : llm (summarize_prompt main_question sub_questions search_results)
          = Except.error ()) :
    summarize_findings main_question sub_questions search_results llm
      = ("Error generating summary. Please try again.", buildSources search_results) := by
  simp [summarize_findings, h]

/-- **C5** witness. -/
theorem summary_error_literal_witness :
    summarize_findings "q" ["s1"] [] (fun _ => Except.error ())
      = ("Error generating summary. Please try again.", []) :=
  summary_error_literal "q" ["s1"] [] (fun _ => Except.error ()) rfl

/-! ### C6 — best-effort persistence -/

/-- **C6**: a vector-store failure never propagates: `_store_results` returns
normally whatever the `collection.add` call does, and `get_similar_research`
returns the empty sequence when the `collection.query` call raises. -/
theorem persistence_failures_swallowed {α : Type} (research_id question summary : String)
    (sources : List Source) (limit : Nat) (add : Except Unit Unit)
    (queryCall : String → Nat → Except Unit (List α))
    (hq : queryCall question limit = Except.error ()) :
    store_results research_id question summary sources add = Except.ok () ∧
    get_similar_research question limit queryCall = Except.ok [] := by
  constructor
  · cases add with
    | ok u => cases u; rfl
    | error e => rfl
  · simp [get_similar_research, hq]

/-- **C6** witness with a concretely failing backend. -/
theorem persistence_failures_swallowed_witness :
    store_results "rid" "q" "sum" [] (Except.error ()) = Except.ok () ∧
    get_similar_research "q" 3 (fun _ _ => (Except.error () : Except Unit (List Nat)))
      = Except.ok [] :=
  persistence_failures_swallowed "rid" "q" "sum" [] 3 (Except.error ())
    (fun _ _ => Except.error ()) rfl

/-! ### C7, C8 — Mock Result Generator -/

theorem entries_fields_ne :
    ∀ e ∈ climateEntries ++ aiEntries ++ economicEntries,
      e.title ≠ "" ∧ e.source ≠ "" ∧ e.snippet ≠ "" := by decide

theorem findTopic_cases (ql : String) (canned : List MockEntry)
    (h : findTopic ql = some canned) :
    canned = climateEntries ∨ canned = aiEntries ∨ canned = economicEntries := by
  unfold findTopic at h
  rw [Option.map_eq_some'] at h
  obtain ⟨t, ht, hsnd⟩ := h
  have hm := List.mem_of_find?_eq_some ht
  simp only [topics, List.mem_cons, List.mem_singleton, List.not_mem_nil, or_false] at hm
  rcases hm with h1 | h1 | h1 <;> rw [h1] at hsnd <;> simp_all

/-- **C7**: the Mock Generator is deterministic, returns at most `n` results,
every returned record has all four fields non-empty, and on the canned-topic
branch the (missing) link is synthesized as `https://` plus the source. -/
theorem mock_results_contract (query : String) (n : Nat) :
    generate_mock_results query n = generate_mock_results query n ∧
    (generate_mock_results query n).length ≤ n ∧
    (∀ r ∈ generate_mock_results query n,
      r.title ≠ "" ∧ r.link ≠ "" ∧ r.snippet ≠ "" ∧ r.source ≠ "") ∧
    (∀ canned, findTopic (pyLower query) = some canned →
      ∀ r ∈ generate_mock_results query n, r.link = "https://" ++ r.source) := by
  refine ⟨rfl, ?_, ?_, ?_⟩
  · cases hf : findTopic (pyLower query) with
    | none => simp [generate_mock_results, hf]
    | some canned =>
      simp [generate_mock_results, hf, List.length_take]
  · intro r hr
    cases hf : findTopic (pyLower query) with
    | none =>
      simp only [generate_mock_results, hf, List.mem_map] at hr
      obtain ⟨i, _, hri⟩ := hr
      subst hri
      exact ⟨strAppendL _ _ (strAppendL _ _ (strAppendL _ _ (by decide))),
        strAppendL _ _ (by decide),
        strAppendL _ _ (strAppendL _ _ (by decide)),
        strAppendL _ _ (strAppendL _ _ (by decide))⟩
    | some canned =>
      simp only [generate_mock_results, hf, List.mem_map] at hr
      obtain ⟨e, he, hre⟩ := hr
      subst hre
      have he2 : e ∈ climateEntries ++ aiEntries ++ economicEntries := by
        have hc := List.take_subset n canned he
        rcases findTopic_cases _ _ hf with h1 | h1 | h1 <;> rw [h1] at hc <;>
          simp [hc]
      obtain ⟨ht, hs, hsn⟩ := entries_fields_ne e he2
      exact ⟨ht, strAppendL _ _ (by decide), hsn, hs⟩
  · intro canned hf r hr
    simp only [generate_mock_results, hf, List.mem_map] at hr
    obtain ⟨e, _, hre⟩ := hr
    subst hre
    rfl

/-- **C7** witness: at an unknown topic and cap 1 the single generic record
has all four fields non-empty. -/
theorem mock_results_contract_witness :
    (genericMockResult "zzz" 0).title ≠ "" ∧ (genericMockResult "zzz" 0).link ≠ ""
      ∧ (genericMockResult "zzz" 0).snippet ≠ "" ∧ (genericMockResult "zzz" 0).source ≠ "" :=
  (mock_results_contract "zzz" 1).2.2.1 (genericMockResult "zzz" 0) (by decide)

/-- **C8**: a known topic keyword in the lower-cased query selects that
topic's canned set truncated to the cap, the first match in the fixed
mapping order (climate change, artificial intelligence, economic) winning. -/
theorem mock_topic_selection (query : String) (n : Nat) :
    (containsSubstr (pyLower query) "climate change" = true →
      generate_mock_results query n
        = (climateEntries.take n).map (mockEntryToResult query)) ∧
    (containsSubstr (pyLower query) "climate change" = false →
      containsSubstr (pyLower query) "artificial intelligence" = true →
      generate_mock_results query n
        = (aiEntries.take n).map (mockEntryToResult query)) ∧
    (containsSubstr (pyLower query) "climate change" = false →
      containsSubstr (pyLower query) "artificial intelligence" = false →
      containsSubstr (pyLower query) "economic" = true →
      generate_mock_results query n
        = (economicEntries.take n).map (mockEntryToResult query)) := by
  refine ⟨fun h1 => ?_, fun h1 h2 => ?_, fun h1 h2 h3 => ?_⟩
  · simp [generate_mock_results, findTopic, topics, List.find?, h1]
  · simp [generate_mock_results, findTopic, topics, List.find?, h1, h2]
  · simp [generate_mock_results, findTopic, topics, List.find?, h1, h2, h3]

/-- **C8** witness: a query containing `CLIMATE CHANGE` (and also `economic`)
selects the climate canned set, the first topic in mapping order. -/
theorem mock_topic_selection_witness :
    generate_mock_results "Impacts of CLIMATE CHANGE on economic growth" 2
      = (climateEntries.take 2).map
          (mockEntryToResult "Impacts of CLIMATE CHANGE on economic growth") :=
  (mock_topic_selection "Impacts of CLIMATE CHANGE on economic growth" 2).1 (by decide)

/-! ### C3, C4 — search fallback chain and orchestrator fan-out -/

theorem generate_mock_length_le (query : String) (n : Nat) :
    (generate_mock_results query n).length ≤ n := by
  cases hf : findTopic (pyLower query) with
  | none => simp [generate_mock_results, hf]
  | some canned => simp [generate_mock_results, hf, List.length_take]

theorem generate_mock_ne_nil (query : String) (n : Nat) (h : 0 < n) :
    generate_mock_results query n ≠ [] := by
  cases hf : findTopic (pyLower query) with
  | none =>
    simp only [generate_mock_results, hf, Ne, List.map_eq_nil_iff, List.range_eq_nil]
    omega
  | some canned =>
    have hc : canned ≠ [] := by
      rcases findTopic_cases _ _ hf with h1 | h1 | h1 <;> subst h1 <;> decide
    simp only [generate_mock_results, hf, Ne, List.map_eq_nil_iff, List.take_eq_nil_iff]
    rintro (h0 | h0)
    · omega
    · exact hc h0

theorem parseDDG_length_le (query : String) (uddg : String → Option String)
    (raws : List RawDDGItem) (cap : Nat) : (parseDDG query uddg raws cap).length ≤ cap :=
  calc (parseDDG query uddg raws cap).length
      ≤ (raws.take cap).length := List.length_filterMap_le _ _
    _ ≤ cap := by rw [List.length_take]; exact min_le_left _ _

theorem parseGoogle_length_le (query : String) (raws : List RawGoogleItem)
    (cap : Nat) : (parseGoogle query raws cap).length ≤ cap :=
  calc (parseGoogle query raws cap).length
      ≤ (raws.take cap).length := List.length_filterMap_le _ _
    _ ≤ cap := by rw [List.length_take]; exact min_le_left _ _

theorem fallback_search_length_le (query : String) (cap : Nat)
    (google : Except Unit (List RawGoogleItem)) :
    (fallback_search query cap google).length ≤ cap := by
  cases google with
  | error e => exact generate_mock_length_le query cap
  | ok raws =>
    simp only [fallback_search]
    split
    · exact generate_mock_length_le query cap
    · exact parseGoogle_length_le query raws cap

theorem search_web_length_le (query : String) (cap : Nat)
    (uddg : String → Option String) (ddg : Except Unit (List RawDDGItem))
    (google : Except Unit (List RawGoogleItem)) :
    (search_web query cap uddg ddg google).length ≤ cap := by
  cases ddg with
  | error e => exact fallback_search_length_le query cap google
  | ok raws =>
    simp only [search_web]
    split
    · exact fallback_search_length_le query cap google
    · exact parseDDG_length_le query uddg raws cap

theorem fallback_search_ne_nil (query : String) (cap : Nat)
    (google : Except Unit (List RawGoogleItem)) (h : 0 < cap) :
    fallback_search query cap google ≠ [] := by
  cases google with
  | error e => exact generate_mock_ne_nil query cap h
  | ok raws =>
    simp only [fallback_search]
    split
    · exact generate_mock_ne_nil query cap h
    · rename_i hemp
      simpa [List.isEmpty_iff] using hemp

/-- **C3**: the Web Search Client's fallback chain: a raising or empty
primary tier hands over to the secondary tier, a raising or empty secondary
tier hands over to the Mock Generator, and for a positive cap the end-to-end
result is never the empty sequence (the embedding is total, so no exception
escapes either tier). -/
theorem search_fallback_chain_nonempty (query : String) (n : Nat)
    (uddg : String → Option String) (ddg : Except Unit (List RawDDGItem))
    (google : Except Unit (List RawGoogleItem)) (h : 0 < n) :
    search_web query n uddg ddg google ≠ [] ∧
    (ddg = Except.error () →
      search_web query n uddg ddg google = fallback_search query n google) ∧
    (∀ raws, ddg = Except.ok raws → parseDDG query uddg raws n = [] →
      search_web query n uddg ddg google = fallback_search query n google) ∧
    (google = Except.error () →
      fallback_search query n google = generate_mock_results query n) ∧
    (∀ graws, google = Except.ok graws → parseGoogle query graws n = [] →
      fallback_search query n google = generate_mock_results query n) := by
  refine ⟨?_, fun hd => by simp [search_web, hd],
    fun raws hd hp => by simp [search_web, hd, hp],
    fun hg => by simp [fallback_search, hg],
    fun graws hg hp => by simp [fallback_search, hg, hp]⟩
  cases ddg with
  | error e => exact fallback_search_ne_nil query n google h
  | ok raws =>
    simp only [search_web]
    split
    · exact fallback_search_ne_nil query n google h
    · rename_i hemp
      simpa [List.isEmpty_iff] using hemp

/-- **C3** witness: both tiers raising, cap 1. -/
theorem search_fallback_chain_nonempty_witness :
    search_web "q" 1 (fun _ => none) (Except.error ()) (Except.error ()) ≠ [] :=
  (search_fallback_chain_nonempty "q" 1 (fun _ => none) (Except.error ())
    (Except.error ()) (by decide)).1

theorem foldl_append_flatten {β γ : Type} (f : β → List γ) :
    ∀ (l : List β) (acc : List γ),
      l.foldl (fun a x => a ++ f x) acc = acc ++ (l.map f).flatten := by
  intro l
  induction l with
  | nil => intro acc; simp
  | cons x rest ih => intro acc; simp [ih, List.append_assoc]

/-- **C4**: for a non-empty sub-question list of length `k`, the orchestrator
requests `max_results / k` results per sub-question, concatenates the
per-sub-question lists in order, and the aggregate has at most `max_results`
elements. -/
theorem fanout_division_and_bound (sub_questions : List String) (max_results : Nat)
    (uddg : String → Option String)
    (ddg : String → Except Unit (List RawDDGItem))
    (google : String → Except Unit (List RawGoogleItem))
    (h : sub_questions ≠ []) :
    aggregateResults sub_questions max_results uddg ddg google
      = (sub_questions.map (fun sq =>
          search_web sq (max_results / sub_questions.length) uddg (ddg sq) (google sq))).flatten ∧
    (aggregateResults sub_questions max_results uddg ddg google).length ≤ max_results := by
  have hagg : aggregateResults sub_questions max_results uddg ddg google
      = (sub_questions.map (fun sq =>
          search_web sq (max_results / sub_questions.length) uddg (ddg sq) (google sq))).flatten := by
    unfold aggregateResults
    simpa using foldl_append_flatten _ sub_questions []
  refine ⟨hagg, ?_⟩
  rw [hagg, List.length_flatten, List.map_map]
  have hb : ∀ x ∈ sub_questions.map (List.length ∘ (fun sq =>
      search_web sq (max_results / sub_questions.length) uddg (ddg sq) (google sq))),
      x ≤ max_results / sub_questions.length := by
    intro x hx
    rw [List.mem_map] at hx
    obtain ⟨sq, _, hxe⟩ := hx
    subst hxe
    exact search_web_length_le sq (max_results / sub_questions.length) uddg (ddg sq) (google sq)
  have hs := List.sum_le_card_nsmul _ _ hb
  rw [List.length_map, smul_eq_mul] at hs
  refine le_trans hs ?_
  rw [Nat.mul_comm]
  exact Nat.div_mul_le_self max_results sub_questions.length

/-- **C4** witness: two sub-questions, cap 5, all web tiers raising. -/
theorem fanout_division_and_bound_witness :
    (aggregateResults ["a", "b"] 5 (fun _ => none) (fun _ => Except.error ())
        (fun _ => Except.error ())).length ≤ 5 :=
  (fanout_division_and_bound ["a", "b"] 5 (fun _ => none) (fun _ => Except.error ())
    (fun _ => Except.error ()) (by decide)).2

/-! ### C9 — source derivation from the link -/

/-- Modelled from the spec's words (spec-side definition for comparison with
the code's `deriveSource`): the link's host component, "everything after the
scheme delimiter and before the next `/`", i.e. the text following the first
`//` up to the next `/`. -/
def hostAfter : List Char → List Char
  | [] => []
  | c :: cs =>
    if startsCh ['/', '/'] (c :: cs) then (cs.drop 1).takeWhile (fun x => x ≠ '/')
    else hostAfter cs

/-- Spec-side host component of a link (see `hostAfter`). -/
def specHostComponent (link : String) : String :=
  String.mk (hostAfter link.data)

theorem splitCh_ne_nil (sep : Char) (l : List Char) : splitCh sep l ≠ [] := by
  cases l with
  | nil => simp [splitCh]
  | cons c cs =>
    simp only [splitCh]
    split
    · simp
    · split <;> simp

theorem splitCh_sep_append (sep : Char) :
    ∀ (pre l : List Char), sep ∉ pre →
      splitCh sep (pre ++ sep :: l) = pre :: splitCh sep l := by
  intro pre
  induction pre with
  | nil => intro l h; simp [splitCh]
  | cons c cs ih =>
    intro l h
    have hc : c ≠ sep := fun hcs => h (hcs ▸ List.mem_cons_self c cs)
    have hcs2 : sep ∉ cs := fun hm => h (List.mem_cons_of_mem c hm)
    simp only [List.cons_append, splitCh]
    rw [if_neg hc]
    have ih2 : splitCh sep (cs.append (sep :: l)) = cs :: splitCh sep l := ih l hcs2
    rw [ih2]

theorem startsCh_containsCh (pat l : List Char) (h : startsCh pat l = true) :
    containsCh pat l = true := by
  cases l with
  | nil => simpa [containsCh] using h
  | cons c cs => simp [containsCh, h]

theorem containsCh_append_of_startsCh (l1 l2 pat : List Char)
    (h : startsCh pat l2 = true) : containsCh pat (l1 ++ l2) = true := by
  induction l1 with
  | nil => simpa using startsCh_containsCh pat l2 h
  | cons c cs ih => simp [containsCh, ih]

/-- **C9** (counterexample): a parsed record whose link contains `//` but has
an earlier `/` gets `split('/')[2]` — here the empty string — as its source,
not the host component after the scheme delimiter (`"c"`). -/
theorem source_host_mismatch :
    (parseDDG "q" (fun _ => none) [some ("t", "a/b//c", "s")] 5).map
        (fun r => (r.link, r.source)) = [("a/b//c", "")] ∧
    specHostComponent "a/b//c" = "c" ∧
    containsSubstr "a/b//c" "//" = true ∧
    ("" : String) ≠ "c" := by decide

/-- **C9** (amended): in both search tiers the record's source is
`link.split('/')[2]` — the field between the second and third `/` — when the
link contains `//`, and the raw link otherwise; this equals the host
component (everything after the scheme delimiter and before the next `/`)
whenever no `/` occurs in the link before the scheme delimiter. -/
theorem source_derivation_amended (query : String) (uddg : String → Option String)
    (raws : List RawDDGItem) (cap : Nat) :
    (∀ r ∈ parseDDG query uddg raws cap, r.source = deriveSource r.link) ∧
    (∀ graws : List RawGoogleItem, ∀ r ∈ parseGoogle query graws cap,
      r.source = deriveSource r.link) ∧
    (∀ link : String, containsSubstr link "//" = false → deriveSource link = link) ∧
    (∀ pre rest : String, '/' ∉ pre.data →
      deriveSource (pre ++ "//" ++ rest)
        = String.mk ((splitCh '/' rest.data).headD [])) := by
  refine ⟨?_, ?_, ?_, ?_⟩
  · intro r hr
    simp only [parseDDG, List.mem_filterMap] at hr
    obtain ⟨raw, _, hm⟩ := hr
    rw [Option.map_eq_some'] at hm
    obtain ⟨item, _, hitem⟩ := hm
    subst hitem
    rfl
  · intro graws r hr
    simp only [parseGoogle, List.mem_filterMap] at hr
    obtain ⟨raw, _, hm⟩ := hr
    rw [Option.map_eq_some'] at hm
    obtain ⟨item, _, hitem⟩ := hm
    subst hitem
    rfl
  · intro link h
    simp [deriveSource, h]
  · intro pre rest hpre
    have hdata : (pre ++ "//" ++ rest).data = pre.data ++ '/' :: '/' :: rest.data := by
      rw [strAppend_data, strAppend_data, List.append_assoc]
      rfl
    have hcont : containsSubstr (pre ++ "//" ++ rest) "//" = true := by
      show containsCh ['/', '/'] (pre ++ "//" ++ rest).data = true
      rw [hdata]
      exact containsCh_append_of_startsCh _ _ _ (by simp [startsCh])
    have hsplit : splitCh '/' ((pre ++ "//" ++ rest).data)
        = pre.data :: [] :: splitCh '/' rest.data := by
      rw [hdata, splitCh_sep_append '/' pre.data ('/' :: rest.data) hpre]
      rfl
    simp only [deriveSource, hcont, if_true]
    rw [hsplit]
    cases hne : splitCh '/' rest.data with
    | nil => exact absurd hne (splitCh_ne_nil '/' rest.data)
    | cons hd tl => rfl

/-- **C9** witness for the amended statement: a well-formed absolute URL. -/
theorem source_derivation_amended_witness :
    deriveSource ("https:" ++ "//" ++ "example.com/research-1")
      = String.mk ((splitCh '/' "example.com/research-1".data).headD []) :=
  (source_derivation_amended "q" (fun _ => none) [] 0).2.2.2
    "https:" "example.com/research-1" (by decide)

/-! ### C10 — empty decomposition is safe -/

/-- **C10**: if the Decomposer returns the empty list, `conduct_research`
still returns normally (the per-sub-question division sits inside the loop
body, which never runs), with empty `sub_questions` and `sources` and the
fresh research id; the embedding is total, so no zero-divisor error can
occur (Lean's `Nat` division is total, and the fold over `[]` never applies
its body). -/
theorem empty_decomposition_completes (question : String) (max_results : Nat)
    (research_id : String) (llm1 : String → Except Unit String)
    (jsonLoads : String → Except Unit (List String)) (uddg : String → Option String)
    (ddg : String → Except Unit (List RawDDGItem))
    (google : String → Except Unit (List RawGoogleItem))
    (llm2 : String → Except Unit String) (add : Except Unit Unit)
    (h : break_down_question question llm1 jsonLoads = []) :
    (conduct_research question max_results research_id llm1 jsonLoads uddg ddg
        google llm2 add).sub_questions = [] ∧
    (conduct_research question max_results research_id llm1 jsonLoads uddg ddg
        google llm2 add).sources = [] ∧
    (conduct_research question max_results research_id llm1 jsonLoads uddg ddg
        google llm2 add).question = question ∧
    (conduct_research question max_results research_id llm1 jsonLoads uddg ddg
        google llm2 add).research_id = research_id := by
  refine ⟨?_, ?_, rfl, rfl⟩
  · simp only [conduct_research, h]
  · simp only [conduct_research, h]
    rw [summarize_findings_snd]
    rfl

/-- **C10** witness: the model reply parses to the empty JSON array, all web
and summary calls raise, and the response still carries empty sub-question
and source lists with the given research id. -/
theorem empty_decomposition_completes_witness :
    (conduct_research "What is quantum computing?" 10 "rid-1"
        (fun _ => Except.ok "[]") (fun _ => Except.ok []) (fun _ => none)
        (fun _ => Except.error ()) (fun _ => Except.error ())
        (fun _ => Except.error ()) (Except.ok ())).sub_questions = [] ∧
    (conduct_research "What is quantum computing?" 10 "rid-1"
        (fun _ => Except.ok "[]") (fun _ => Except.ok []) (fun _ => none)
        (fun _ => Except.error ()) (fun _ => Except.error ())
        (fun _ => Except.error ()) (Except.ok ())).sources = [] ∧
    (conduct_research "What is quantum computing?" 10 "rid-1"
        (fun _ => Except.ok "[]") (fun _ => Except.ok []) (fun _ => none)
        (fun _ => Except.error ()) (fun _ => Except.error ())
        (fun _ => Except.error ()) (Except.ok ())).question = "What is quantum computing?" ∧
    (conduct_research "What is quantum computing?" 10 "rid-1"
        (fun _ => Except.ok "[]") (fun _ => Except.ok []) (fun _ => none)
        (fun _ => Except.error ()) (fun _ => Except.error ())
        (fun _ => Except.error ()) (Except.ok ())).research_id = "rid-1" :=
  empty_decomposition_completes "What is quantum computing?" 10 "rid-1"
    (fun _ => Except.ok "[]") (fun _ => Except.ok []) (fun _ => none)
    (fun _ => Except.error ()) (fun _ => Except.error ())
    (fun _ => Except.error ()) (Except.ok ()) rfl
